import Mathlib

/-!
Verification development for the website performance / SEO checker.

The Python sources are shallowly embedded: pure computations become Lean
functions over explicit data; machine floats become exact rationals (the
source only compares, adds, subtracts, multiplies and divides timing and
score values, so rational arithmetic is the intended real-number meaning);
Python `round` (banker's rounding, ties to even) is modelled by `pyRound`.
HTML parsing is a supplied capability in the design, so a parsed page is
modelled by the `Doc` record holding exactly the facets the analyzers
query (tag texts, attribute values, element lists).
-/

/-- Python `round(q)`: nearest integer, ties go to the even integer. -/
def pyRound (q : ℚ) : ℤ :=
  let n := ⌊q⌋
  let frac := q - (n : ℚ)
  if frac < 1/2 then n
  else if 1/2 < frac then n + 1
  else if n % 2 = 0 then n else n + 1

/-- Python `round(q, 2)`: round to 2 decimal places. -/
def round2 (q : ℚ) : ℚ := (pyRound (q * 100) : ℚ) / 100

/-- Python `round(q, 1)`: round to 1 decimal place. -/
def round1 (q : ℚ) : ℚ := (pyRound (q * 10) : ℚ) / 10

/-- Helper for Python `str.split()` (no argument): split on runs of
whitespace, discarding empty pieces.  Structural recursion over the
character list so that it evaluates inside the kernel. -/
def split_words_aux : List Char → List Char → List String
  | [], acc => if acc = [] then [] else [String.mk acc.reverse]
  | c :: cs, acc =>
    if c.isWhitespace then
      if acc = [] then split_words_aux cs []
      else String.mk acc.reverse :: split_words_aux cs []
    else split_words_aux cs (c :: acc)

/-- Python `str.split()` with no argument, as used for word counting. -/
def split_words (s : String) : List String := split_words_aux s.toList []

/-- Python `needle in haystack` substring test. -/
def str_contains (haystack needle : String) : Bool :=
  (haystack.splitOn needle).length > 1

/-- Python `s.count(c)` for a single character. -/
def count_char (s : String) (c : Char) : ℕ :=
  (s.toList.filter (fun x => x = c)).length

/-- Lookup in a Python dict built by inserting pairs in list order
(later occurrences of a key overwrite earlier ones). -/
def dict_get (tags : List (String × String)) (k : String) : Option String :=
  (tags.reverse.find? (fun p => p.1 = k)).map Prod.snd

/-- URL normalization shared by both checkers: prepend `https://` when no
scheme is present. -/
def ensure_protocol (url : String) : String :=
  if url.startsWith "http://" ∨ url.startsWith "https://" then url
  else "https://" ++ url

/-! ## Performance checker (src/local-perf-checker.py; the functions below
are byte-identical in src/remote-perf-checker.py) -/

/-- Embeds `_grade_performance`: tiered grading from TTFB and total load
time, both in milliseconds. -/
def grade_performance (ttfb total_time : ℚ) : String :=
  if ttfb ≤ 200 ∧ total_time ≤ 1000 then "A+"
  else if ttfb ≤ 500 ∧ total_time ≤ 2000 then "A"
  else if ttfb ≤ 800 ∧ total_time ≤ 3000 then "B"
  else if ttfb ≤ 1200 ∧ total_time ≤ 5000 then "C"
  else if ttfb ≤ 2000 ∧ total_time ≤ 8000 then "D"
  else "F"

/-- Embeds `_get_recommendations`. -/
def get_recommendations (ttfb total_time : ℚ) : List String :=
  let recommendations :=
    (if ttfb > 1000 then ["High TTFB detected - consider server optimization or CDN"]
     else if ttfb > 500 then ["TTFB could be improved with server-side caching"]
     else [])
    ++
    (if total_time > 5000 then ["Page load time is slow - optimize images and resources"]
     else if total_time > 3000 then ["Consider minifying CSS/JS and enabling compression"]
     else [])
  if recommendations = [] then ["Performance looks good! Consider monitoring regularly"]
  else recommendations

/-- Response metadata captured by `_measure_performance` (network-layer
facts supplied by the HTTP client). -/
structure ResponseInfo where
  status_code : ℕ
  status_text : String
  content_type : String
  server : String
  final_url : String
  redirects : ℕ
deriving DecidableEq

/-- The `performance` sub-dict built by `_measure_performance`. -/
structure ReportedPerformance where
  ttfb_ms : ℚ
  total_time_ms : ℚ
  download_time_ms : ℚ
  content_size_bytes : ℕ
  content_size_kb : ℚ
  grade : String
  recommendations : List String
deriving DecidableEq

/-- Embeds the successful branch of `_measure_performance`: the three wall
clock timestamps `t0` (request sent), `t1` (headers received) and `t2`
(body fully read) are in seconds; the body length and response metadata
come from the HTTP exchange. -/
def measure_performance (t0 t1 t2 : ℚ) (content_len : ℕ) (resp : ResponseInfo) :
    ReportedPerformance × ResponseInfo :=
  let ttfb := (t1 - t0) * 1000
  let total_time := (t2 - t0) * 1000
  let download_time := total_time - ttfb
  ({ ttfb_ms := round2 ttfb
     total_time_ms := round2 total_time
     download_time_ms := round2 download_time
     content_size_bytes := content_len
     content_size_kb := round2 ((content_len : ℚ) / 1024)
     grade := grade_performance ttfb total_time
     recommendations := get_recommendations ttfb total_time },
   resp)

/-- One entry of the list returned by `check_multiple_websites`: the dict
built by `check_website_performance`, or the 3-key error dict synthesized
for an exception (in which case `hostname`, `performance` and `response`
are absent). -/
structure UrlResult where
  url : String
  hostname : Option String
  status : String
  performance : Option ReportedPerformance
  response : Option ResponseInfo
  errors : List String
deriving DecidableEq

/-- Embeds the exception-handling loop of `check_multiple_websites`: an
exceptional outcome for a URL is replaced by the error dict carrying that
URL. -/
def process_outcome (url : String) (r : Except String UrlResult) : UrlResult :=
  match r with
  | Except.error e =>
    { url := url, hostname := none, status := "error",
      performance := none, response := none, errors := [e] }
  | Except.ok v => v

/-- Embeds `check_multiple_websites`.  The per-URL check (a network
operation) is abstracted as `check`, returning either the result dict or
the exception message that `asyncio.gather(..., return_exceptions=True)`
would capture; the gather preserves input order, so outcome `i` belongs
to URL `i`. -/
def check_multiple_websites (check : String → Except String UrlResult)
    (urls : List String) : List UrlResult :=
  if urls = [] then []
  else urls.map (fun u => process_outcome u (check u))

/-! ## SEO checker (src/local-seo-checker.py) -/

/-- A parsed HTML document, holding the facets that the SEO analyzers
query from the DOM (parsing itself is a supplied capability in the
design).  `title` is the text of the `<title>` element when present;
`meta_description` is the `content` attribute of the description meta tag
(`none` when the tag or the attribute is absent); `h1` … `h6` are the
texts of the heading elements in document order; `img_alts` is the `alt`
attribute of each `<img>` (`none` when the attribute is absent);
`og_tags` / `twitter_tags` are the prefix-stripped property/name →
content pairs in document order; `schema_script_count` is the number of
`<script type="application/ld+json">` elements. -/
structure Doc where
  title : Option String
  meta_description : Option String
  meta_keywords : Option String
  robots : Option String
  viewport : Option String
  canonical : Option String
  h1 : List String
  h2 : List String
  h3 : List String
  h4 : List String
  h5 : List String
  h6 : List String
  body_text : String
  raw_html : String
  img_alts : List (Option String)
  og_tags : List (String × String)
  twitter_tags : List (String × String)
  schema_script_count : ℕ
  has_doctype : Bool
  lang : Option String
  charset_attr : Option String
  content_type_meta : Option String
deriving DecidableEq

/-- The dict returned by `_fetch_page_with_timing`, minus the content
(whose parse is the `Doc`).  A fetch failure is surfaced as status code 0
with the exception text, exactly as in the source. -/
structure FetchedPage where
  status_code : ℕ
  status_text : String
  final_url : String
  ttfb_ms : ℚ
  total_ms : ℚ
  size_bytes : ℕ
deriving DecidableEq

/-- Shape shared by `_analyze_title` and `_analyze_meta_description`
results. -/
structure TagAnalysis where
  tag_exists : Bool
  content : String
  length : ℕ
  issues : List String
  score : ℤ
deriving DecidableEq

/-- Embeds `_analyze_title`. -/
def analyze_title (d : Doc) : TagAnalysis :=
  match d.title with
  | none =>
    { tag_exists := false, content := "", length := 0,
      issues := ["Missing title tag"], score := 0 }
  | some t =>
    let title_text := t.trim
    let title_length := title_text.length
    let (issues1, score1) :=
      if title_length = 0 then (["Title tag is empty"], (100 : ℤ) - 50)
      else if title_length < 30 then (["Title is too short (< 30 characters)"], 100 - 20)
      else if title_length > 60 then
        (["Title may be truncated in search results (> 60 characters)"], 100 - 10)
      else ([], 100)
    let (issues2, score2) :=
      if count_char title_text '|' > 2 then
        (issues1 ++ ["Too many separators in title"], score1 - 5)
      else (issues1, score1)
    let (issues3, score3) :=
      if title_text.toUpper = title_text ∧ title_text.length > 10 then
        (issues2 ++ ["Title is in ALL CAPS"], score2 - 10)
      else (issues2, score2)
    { tag_exists := true, content := title_text, length := title_length,
      issues := issues3, score := max 0 score3 }

/-- Embeds `_analyze_meta_description`.  An absent tag, an absent
`content` attribute and an empty `content` attribute all take the
missing branch (Python truthiness of `desc_tag.get('content')`). -/
def analyze_meta_description (d : Doc) : TagAnalysis :=
  match d.meta_description with
  | none =>
    { tag_exists := false, content := "", length := 0,
      issues := ["Missing meta description"], score := 0 }
  | some c =>
    if c = "" then
      { tag_exists := false, content := "", length := 0,
        issues := ["Missing meta description"], score := 0 }
    else
      let desc_text := c.trim
      let desc_length := desc_text.length
      let (issues1, score1) :=
        if desc_length = 0 then (["Meta description is empty"], (100 : ℤ) - 50)
        else if desc_length < 120 then
          (["Meta description is too short (< 120 characters)"], 100 - 15)
        else if desc_length > 160 then
          (["Meta description may be truncated (> 160 characters)"], 100 - 10)
        else ([], 100)
      { tag_exists := true, content := desc_text, length := desc_length,
        issues := issues1, score := max 0 score1 }

/-- Result of `_analyze_meta_keywords`. -/
structure KeywordsAnalysis where
  tag_exists : Bool
  content : Option String
  note : String
deriving DecidableEq

/-- Embeds `_analyze_meta_keywords`. -/
def analyze_meta_keywords (d : Doc) : KeywordsAnalysis :=
  match d.meta_keywords with
  | none =>
    { tag_exists := false, content := none,
      note := "Meta keywords not used (good - they're obsolete)" }
  | some c =>
    { tag_exists := true, content := some c.trim,
      note := "Meta keywords are obsolete and ignored by search engines" }

/-- Result of `_analyze_robots_meta`. -/
structure RobotsAnalysis where
  tag_exists : Bool
  directives : List String
  issues : List String
deriving DecidableEq

/-- Embeds `_analyze_robots_meta`. -/
def analyze_robots_meta (d : Doc) : RobotsAnalysis :=
  match d.robots with
  | none => { tag_exists := false, directives := [], issues := [] }
  | some c =>
    let directives := (c.toLower.splitOn ",").map String.trim
    let issues :=
      (if directives.contains "noindex" then
        ["Page is set to NOINDEX - won't appear in search results"] else [])
      ++
      (if directives.contains "nofollow" then
        ["Page is set to NOFOLLOW - links won't be followed"] else [])
    { tag_exists := true, directives := directives, issues := issues }

/-- Result of `_analyze_viewport_meta`. -/
structure ViewportAnalysis where
  tag_exists : Bool
  content : Option String
  issues : List String
deriving DecidableEq

/-- Embeds `_analyze_viewport_meta`. -/
def analyze_viewport_meta (d : Doc) : ViewportAnalysis :=
  match d.viewport with
  | none =>
    { tag_exists := false, content := none,
      issues := ["Missing viewport meta tag - may not be mobile-friendly"] }
  | some c =>
    let has_width := str_contains c "width="
    let has_initial_scale := str_contains c "initial-scale="
    { tag_exists := true, content := some c,
      issues :=
        (if has_width then [] else ["Viewport should specify width"])
        ++ (if has_initial_scale then [] else ["Viewport should specify initial-scale"]) }

/-- Result of `_analyze_canonical`. -/
structure CanonicalAnalysis where
  tag_exists : Bool
  url : Option String
  issues : List String
deriving DecidableEq

/-- Embeds `_analyze_canonical`. -/
def analyze_canonical (d : Doc) : CanonicalAnalysis :=
  match d.canonical with
  | none =>
    { tag_exists := false, url := none,
      issues := ["Missing canonical URL - may cause duplicate content issues"] }
  | some href =>
    let issues :=
      if href = "" then ["Canonical tag exists but has no href"]
      else if ¬ (href.startsWith "http://" ∨ href.startsWith "https://") then
        ["Canonical URL should be absolute"]
      else []
    { tag_exists := true, url := some href, issues := issues }

/-- The `meta_analysis` dict built by `_analyze_meta_tags`. -/
structure MetaAnalysis where
  description : TagAnalysis
  keywords : KeywordsAnalysis
  robots : RobotsAnalysis
  viewport : ViewportAnalysis
  canonical : CanonicalAnalysis
deriving DecidableEq

/-- Embeds `_analyze_meta_tags`. -/
def analyze_meta_tags (d : Doc) : MetaAnalysis :=
  { description := analyze_meta_description d
    keywords := analyze_meta_keywords d
    robots := analyze_robots_meta d
    viewport := analyze_viewport_meta d
    canonical := analyze_canonical d }

/-- Per-level entry of the header `structure` dict. -/
structure HeaderLevel where
  count : ℕ
  content : List String
deriving DecidableEq

/-- The header `structure` dict, one entry per level h1 … h6. -/
structure HeaderStructure where
  h1 : HeaderLevel
  h2 : HeaderLevel
  h3 : HeaderLevel
  h4 : HeaderLevel
  h5 : HeaderLevel
  h6 : HeaderLevel
deriving DecidableEq

/-- Builds one `HeaderLevel` entry: count plus the first 5 texts,
stripped and truncated to 100 characters. -/
def header_level (tags : List String) : HeaderLevel :=
  { count := tags.length
    content := (tags.take 5).map (fun t => t.trim.take 100) }

/-- Result of `_analyze_headers`. -/
structure HeaderAnalysis where
  headers : HeaderStructure
  issues : List String
  score : ℤ
deriving DecidableEq

/-- Embeds `_analyze_headers`. -/
def analyze_headers (d : Doc) : HeaderAnalysis :=
  let hs : HeaderStructure :=
    { h1 := header_level d.h1, h2 := header_level d.h2, h3 := header_level d.h3
      h4 := header_level d.h4, h5 := header_level d.h5, h6 := header_level d.h6 }
  let h1_count := hs.h1.count
  let issues1 :=
    if h1_count = 0 then ["Missing H1 tag"]
    else if h1_count > 1 then
      ["Multiple H1 tags found (" ++ toString h1_count ++ ") - should have only one"]
    else []
  let has_headers :=
    [hs.h1, hs.h2, hs.h3, hs.h4, hs.h5, hs.h6].any (fun h => h.count > 0)
  let structure_issues :=
    issues1 ++ (if has_headers then [] else ["No header tags found"])
  { headers := hs, issues := structure_issues,
    score := 100 - ((structure_issues.length : ℤ) * 15) }

/-- Result of `_analyze_content`.  The field `text_to_html_pct` embeds
the source key `text_to_html_ratio`. -/
structure ContentAnalysis where
  word_count : ℕ
  character_count : ℕ
  text_to_html_pct : ℚ
  issues : List String
  score : ℤ
deriving DecidableEq

/-- Embeds `_analyze_content`, branch order included: the source tests
`word_count < 300` first and `word_count < 150` only in the `elif`. -/
def analyze_content (d : Doc) : ContentAnalysis :=
  let text_content := d.body_text
  let words := split_words text_content
  let word_count := words.length
  let (issues1, score1) :=
    if word_count < 300 then (["Content is thin (< 300 words)"], (100 : ℤ) - 25)
    else if word_count < 150 then (["Very thin content (< 150 words)"], (100 : ℤ) - 40)
    else ([], 100)
  let html_size := d.raw_html.length
  let text_size := text_content.length
  let text_pct : ℚ := if html_size > 0 then ((text_size : ℚ) / (html_size : ℚ)) * 100 else 0
  let (issues2, score2) :=
    if text_pct < 15 then (issues1 ++ ["Low text-to-HTML ratio (< 15%)"], score1 - 15)
    else (issues1, score1)
  { word_count := word_count
    character_count := text_size
    text_to_html_pct := round1 text_pct
    issues := issues2
    score := max 0 score2 }

/-- Python truthiness of `alt_text is not None and alt_text.strip()`:
the attribute exists and its stripped value is non-empty. -/
def alt_present : Option String → Bool
  | none => false
  | some a => a.trim != ""

/-- Result of `_analyze_images`.  `alt_percentage` is absent from the
source dict in the zero-image branch, hence the `Option`. -/
structure ImageAnalysis where
  total_images : ℕ
  images_with_alt : ℕ
  images_without_alt : ℕ
  alt_percentage : Option ℚ
  issues : List String
  score : ℤ
deriving DecidableEq

/-- Embeds `_analyze_images`. -/
def analyze_images (d : Doc) : ImageAnalysis :=
  let img_tags := d.img_alts
  let total_images := img_tags.length
  if total_images = 0 then
    { total_images := 0, images_with_alt := 0, images_without_alt := 0,
      alt_percentage := none, issues := ["No images found"], score := 100 }
  else
    let images_with_alt := img_tags.countP (fun a => alt_present a)
    let images_without_alt := img_tags.countP (fun a => !(alt_present a))
    let alt_percentage : ℚ := ((images_with_alt : ℚ) / (total_images : ℚ)) * 100
    let score : ℚ := alt_percentage
    let issues :=
      if images_without_alt > 0 then
        [toString images_without_alt ++ " images missing alt text"]
      else []
    { total_images := total_images
      images_with_alt := images_with_alt
      images_without_alt := images_without_alt
      alt_percentage := some (round1 alt_percentage)
      issues := issues
      score := pyRound score }

/-- Result of `_analyze_technical_seo`. -/
structure TechnicalSeo where
  https : Bool
  load_time_ms : ℚ
  page_size_kb : ℚ
  has_schema_markup : Bool
  schema_types : ℕ
  issues : List String
deriving DecidableEq

/-- Embeds `_analyze_technical_seo`. -/
def analyze_technical_seo (d : Doc) (page : FetchedPage) : TechnicalSeo :=
  let load_time := page.total_ms
  let issues1 :=
    if load_time > 3000 then ["Slow page load time (> 3 seconds)"]
    else if load_time > 2000 then ["Page load time could be improved (> 2 seconds)"]
    else []
  let is_https := page.final_url.startsWith "https"
  let issues2 := issues1 ++ (if is_https then [] else ["Page is not served over HTTPS"])
  { https := is_https
    load_time_ms := load_time
    page_size_kb := round2 ((page.size_bytes : ℚ) / 1024)
    has_schema_markup := d.schema_script_count > 0
    schema_types := d.schema_script_count
    issues := issues2 }

/-- Key `k` is present in the tag map with a truthy (non-empty) value. -/
def essential_present (tags : List (String × String)) (k : String) : Bool :=
  match dict_get tags k with
  | some v => v != ""
  | none => false

/-- The `open_graph` sub-dict of `_analyze_social_media_tags`. -/
structure OpenGraph where
  tags : List (String × String)
  score : ℕ
  has_essential : Bool
deriving DecidableEq

/-- The `twitter_cards` sub-dict of `_analyze_social_media_tags`. -/
structure TwitterCards where
  tags : List (String × String)
  score : ℕ
  has_essential : Bool
deriving DecidableEq

/-- Result of `_analyze_social_media_tags`. -/
structure SocialMedia where
  open_graph : OpenGraph
  twitter_cards : TwitterCards
deriving DecidableEq

/-- Embeds `_analyze_social_media_tags`: 25 points per essential Open
Graph key, 33 points per essential Twitter key. -/
def analyze_social_media_tags (d : Doc) : SocialMedia :=
  let essential_og := ["title", "description", "image", "url"]
  let og_score := 25 * (essential_og.countP (fun t => essential_present d.og_tags t))
  let essential_twitter := ["card", "title", "description"]
  let twitter_score := 33 * (essential_twitter.countP (fun t => essential_present d.twitter_tags t))
  { open_graph :=
      { tags := d.og_tags, score := og_score,
        has_essential := og_score == 100 }
    twitter_cards :=
      { tags := d.twitter_tags, score := min twitter_score 100,
        has_essential := decide (100 ≤ twitter_score) } }

/-- Result of `_analyze_page_info`. -/
structure PageInfo where
  status_code : ℕ
  final_url : String
  load_time_ms : ℚ
  page_size_kb : ℚ
  has_doctype : Bool
  language : Option String
  charset : Option String
deriving DecidableEq

/-- Embeds `_extract_charset`: the `charset` attribute of a meta tag, or
the first `charset=` value (up to a `;`) of an http-equiv Content-Type
meta tag. -/
def extract_charset (d : Doc) : Option String :=
  match d.charset_attr with
  | some c => some c
  | none =>
    match d.content_type_meta with
    | none => none
    | some content =>
      if content = "" then none
      else
        let parts := content.splitOn "charset="
        if parts.length ≤ 1 then none
        else
          let rest := String.intercalate "charset=" (parts.drop 1)
          let captured := (rest.splitOn ";").headD ""
          if captured = "" then none else some captured

/-- Embeds `_analyze_page_info`. -/
def analyze_page_info (page : FetchedPage) (d : Doc) : PageInfo :=
  { status_code := page.status_code
    final_url := page.final_url
    load_time_ms := page.total_ms
    page_size_kb := round2 ((page.size_bytes : ℚ) / 1024)
    has_doctype := d.has_doctype
    language := d.lang
    charset := extract_charset d }

/-- Embeds `_generate_recommendations`: returns
(recommendations, critical_issues, warnings) in emission order. -/
def generate_recommendations (ta : TagAnalysis) (md : TagAnalysis)
    (ha : HeaderAnalysis) (ca : ContentAnalysis) (ia : ImageAnalysis)
    (ts : TechnicalSeo) (sm : SocialMedia) :
    List String × List String × List String :=
  let (recs1, crit1, warn1) :=
    if ta.tag_exists = false then ([], ["Add a title tag to the page"], [])
    else if ta.length < 30 then (["Expand title tag (aim for 30-60 characters)"], [], [])
    else if ta.length > 60 then ([], [], ["Consider shortening title tag to avoid truncation"])
    else ([], [], [])
  let (recs2, crit2) :=
    if md.tag_exists = false then ([], ["Add a meta description tag"])
    else if md.length < 120 then
      (["Expand meta description (aim for 120-160 characters)"], [])
    else ([], [])
  let (crit3, warn3) :=
    if ha.headers.h1.count = 0 then (["Add an H1 tag to the page"], [])
    else if ha.headers.h1.count > 1 then ([], ["Use only one H1 tag per page"])
    else ([], [])
  let recs4 :=
    if ca.word_count < 300 then ["Increase content length (aim for 300+ words)"] else []
  let recs5 :=
    if ia.images_without_alt > 0 then
      ["Add alt text to " ++ toString ia.images_without_alt ++ " images"]
    else []
  let crit6 := ts.issues.filterMap (fun issue =>
    if str_contains issue "HTTPS" then some "Implement SSL certificate (HTTPS)" else none)
  let recs6 := ts.issues.filterMap (fun issue =>
    if str_contains issue "HTTPS" then none
    else if str_contains issue.toLower "slow" then some "Improve page load speed"
    else none)
  let recs7 :=
    if sm.open_graph.has_essential = false then
      ["Add Open Graph tags for better social media sharing"]
    else []
  (recs1 ++ recs2 ++ recs4 ++ recs5 ++ recs6 ++ recs7,
   crit1 ++ crit2 ++ crit3 ++ crit6,
   warn1 ++ warn3)

/-- Embeds `_calculate_seo_score`: weighted sum of the six sub-scores,
with the technical sub-score recomputed as 100 minus 20 per technical
issue, floored at 0, then rounded to the nearest integer. -/
def calculate_seo_score (ta : TagAnalysis) (md : TagAnalysis)
    (ha : HeaderAnalysis) (ca : ContentAnalysis) (ia : ImageAnalysis)
    (ts : TechnicalSeo) : ℤ :=
  let s1 : ℚ := (ta.score : ℚ) * 0.20
  let s2 : ℚ := (md.score : ℚ) * 0.15
  let s3 : ℚ := (ha.score : ℚ) * 0.15
  let s4 : ℚ := (ca.score : ℚ) * 0.20
  let s5 : ℚ := (ia.score : ℚ) * 0.10
  let tech_score : ℤ :=
    if ts.issues ≠ [] then 100 - (ts.issues.length : ℤ) * 20 else 100
  let s6 : ℚ := ((max 0 tech_score : ℤ) : ℚ) * 0.20
  pyRound (s1 + s2 + s3 + s4 + s5 + s6)

/-- The result dict of `analyze_page_seo`.  The analysis sub-dicts start
out as empty `{}` placeholders, modelled by `none`, and are filled only
on the success path. -/
structure SeoResult where
  url : String
  domain : String
  status : String
  seo_score : ℤ
  page_info : Option PageInfo
  title_analysis : Option TagAnalysis
  meta_analysis : Option MetaAnalysis
  header_analysis : Option HeaderAnalysis
  content_analysis : Option ContentAnalysis
  image_analysis : Option ImageAnalysis
  technical_seo : Option TechnicalSeo
  social_media : Option SocialMedia
  recommendations : List String
  critical_issues : List String
  warnings : List String
  errors : List String
deriving DecidableEq

/-- Embeds `analyze_page_seo`: the fetched page (status code 0 with the
exception text when the fetch itself failed) and its parse `d` are
inputs; a final status other than 200 short-circuits with a single error
entry before any extractor runs. -/
def analyze_page_seo (url0 domain : String) (page : FetchedPage) (d : Doc) : SeoResult :=
  let url := ensure_protocol url0
  if page.status_code ≠ 200 then
    { url := url, domain := domain, status := "error", seo_score := 0,
      page_info := none, title_analysis := none, meta_analysis := none,
      header_analysis := none, content_analysis := none, image_analysis := none,
      technical_seo := none, social_media := none,
      recommendations := [], critical_issues := [], warnings := [],
      errors := ["Cannot access page: " ++ toString page.status_code ++ " " ++ page.status_text] }
  else
    let ta := analyze_title d
    let ma := analyze_meta_tags d
    let ha := analyze_headers d
    let ca := analyze_content d
    let ia := analyze_images d
    let ts := analyze_technical_seo d page
    let sm := analyze_social_media_tags d
    let rcw := generate_recommendations ta ma.description ha ca ia ts sm
    { url := url, domain := domain, status := "success",
      seo_score := calculate_seo_score ta ma.description ha ca ia ts,
      page_info := some (analyze_page_info page d),
      title_analysis := some ta, meta_analysis := some ma,
      header_analysis := some ha, content_analysis := some ca,
      image_analysis := some ia, technical_seo := some ts,
      social_media := some sm,
      recommendations := rcw.1, critical_issues := rcw.2.1, warnings := rcw.2.2,
      errors := [] }

/-! ## Sample inputs used by witnesses and counterexamples -/

/-- The grade alphabet actually produced by `grade_performance`, in
best-to-worst order. -/
def grade_values : List String := ["A+", "A", "B", "C", "D", "F"]

/-- A parsed document whose body holds exactly 10 words. -/
def doc_thin : Doc :=
  { title := none, meta_description := none, meta_keywords := none,
    robots := none, viewport := none, canonical := none,
    h1 := [], h2 := [], h3 := [], h4 := [], h5 := [], h6 := [],
    body_text := "w w w w w w w w w w", raw_html := "w w w w w w w w w w",
    img_alts := [], og_tags := [], twitter_tags := [], schema_script_count := 0,
    has_doctype := false, lang := none, charset_attr := none, content_type_meta := none }

/-- A parsed document with no content at all. -/
def doc_empty : Doc :=
  { title := none, meta_description := none, meta_keywords := none,
    robots := none, viewport := none, canonical := none,
    h1 := [], h2 := [], h3 := [], h4 := [], h5 := [], h6 := [],
    body_text := "", raw_html := "",
    img_alts := [], og_tags := [], twitter_tags := [], schema_script_count := 0,
    has_doctype := false, lang := none, charset_attr := none, content_type_meta := none }

/-- Concrete response metadata for witness instantiations. -/
def respW : ResponseInfo :=
  { status_code := 200, status_text := "OK", content_type := "text/html",
    server := "nginx", final_url := "https://example.com/", redirects := 0 }

/-- A concrete successful per-URL result for witness instantiations. -/
def okResultW : UrlResult :=
  { url := "https://a", hostname := some "a", status := "success",
    performance := none, response := none, errors := [] }

/-- A per-URL check that fails with an exception on URL "b" and succeeds
elsewhere. -/
def checkW : String → Except String UrlResult :=
  fun u => if u = "b" then Except.error "boom" else Except.ok okResultW

/-- A concrete two-URL batch. -/
def urlsW : List String := ["a", "b"]

/-- A fetch that failed at the network layer: `_fetch_page_with_timing`
surfaces it as status code 0 with the exception text. -/
def pageFailW : FetchedPage :=
  { status_code := 0, status_text := "Network error: DNS failure",
    final_url := "https://down.example", ttfb_ms := 0, total_ms := 0, size_bytes := 0 }

/-- A successful fetch with final status 200. -/
def pageOkW : FetchedPage :=
  { status_code := 200, status_text := "OK",
    final_url := "https://example.com/", ttfb_ms := 150, total_ms := 350, size_bytes := 2048 }

/-! ## Helper lemmas -/

theorem le_pyRound {q : ℚ} {n : ℤ} (h : (n : ℚ) ≤ q) : n ≤ pyRound q := by
  have hfl : n ≤ ⌊q⌋ := Int.le_floor.mpr h
  simp only [pyRound]
  split_ifs <;> omega

theorem pyRound_le {q : ℚ} {n : ℤ} (h : q ≤ (n : ℚ)) : pyRound q ≤ n := by
  have hfl : ⌊q⌋ ≤ n := by
    have h2 := Int.floor_le_floor h
    simpa using h2
  have hstrict : ¬ (q - (⌊q⌋ : ℚ) < 1/2) → ⌊q⌋ + 1 ≤ n := by
    intro h1
    have hq : (1 : ℚ)/2 ≤ q - (⌊q⌋ : ℚ) := le_of_not_lt h1
    have hlt : ((⌊q⌋ : ℤ) : ℚ) < (n : ℚ) := by linarith
    have : ⌊q⌋ < n := by exact_mod_cast hlt
    omega
  simp only [pyRound]
  split_ifs with h1 h2 h3
  · exact hfl
  · exact hstrict h1
  · exact hfl
  · exact hstrict h1

theorem grade_performance_mem (ttfb total : ℚ) :
    grade_performance ttfb total ∈ grade_values := by
  unfold grade_performance grade_values
  split_ifs <;> simp

/-! ## Claim theorems -/

/-- C1: for every pair of inputs (ttfb_ms, total_ms), the performance
grade is assigned by the first matching rule of the ordered tier table
with both conditions required: A+ iff ttfb≤200 and total≤1000; else A iff
ttfb≤500 and total≤2000; else B iff ttfb≤800 and total≤3000; else C iff
ttfb≤1200 and total≤5000; else D iff ttfb≤2000 and total≤8000; else F. -/
theorem C1_grade_first_match (ttfb total : ℚ) :
    (grade_performance ttfb total = "A+" ↔ (ttfb ≤ 200 ∧ total ≤ 1000)) ∧
    (grade_performance ttfb total = "A" ↔
      (¬(ttfb ≤ 200 ∧ total ≤ 1000) ∧ (ttfb ≤ 500 ∧ total ≤ 2000))) ∧
    (grade_performance ttfb total = "B" ↔
      (¬(ttfb ≤ 200 ∧ total ≤ 1000) ∧ ¬(ttfb ≤ 500 ∧ total ≤ 2000) ∧
        (ttfb ≤ 800 ∧ total ≤ 3000))) ∧
    (grade_performance ttfb total = "C" ↔
      (¬(ttfb ≤ 200 ∧ total ≤ 1000) ∧ ¬(ttfb ≤ 500 ∧ total ≤ 2000) ∧
        ¬(ttfb ≤ 800 ∧ total ≤ 3000) ∧ (ttfb ≤ 1200 ∧ total ≤ 5000))) ∧
    (grade_performance ttfb total = "D" ↔
      (¬(ttfb ≤ 200 ∧ total ≤ 1000) ∧ ¬(ttfb ≤ 500 ∧ total ≤ 2000) ∧
        ¬(ttfb ≤ 800 ∧ total ≤ 3000) ∧ ¬(ttfb ≤ 1200 ∧ total ≤ 5000) ∧
        (ttfb ≤ 2000 ∧ total ≤ 8000))) ∧
    (grade_performance ttfb total = "F" ↔
      (¬(ttfb ≤ 200 ∧ total ≤ 1000) ∧ ¬(ttfb ≤ 500 ∧ total ≤ 2000) ∧
        ¬(ttfb ≤ 800 ∧ total ≤ 3000) ∧ ¬(ttfb ≤ 1200 ∧ total ≤ 5000) ∧
        ¬(ttfb ≤ 2000 ∧ total ≤ 8000))) := by
  unfold grade_performance
  split_ifs with h1 h2 h3 h4 h5 <;> simp_all

/-- C7 counterexample: the grader cannot return seven pairwise distinct
symbols, so the grade alphabet does not have seven members. -/
theorem C7_counterexample :
    ¬ ∃ p : Fin 7 → ℚ × ℚ,
        Function.Injective (fun i => grade_performance (p i).1 (p i).2) := by
  rintro ⟨p, hinj⟩
  have hmem : ∀ i ∈ (Finset.univ : Finset (Fin 7)),
      grade_performance (p i).1 (p i).2 ∈ grade_values.toFinset := by
    intro i _
    exact List.mem_toFinset.mpr (grade_performance_mem _ _)
  have hcard := Finset.card_le_card_of_injOn
    (fun i => grade_performance (p i).1 (p i).2) hmem (hinj.injOn)
  have h6 : grade_values.toFinset.card = 6 := by decide
  rw [Finset.card_univ, Fintype.card_fin, h6] at hcard
  omega

/-- C7 amended: for every pair of inputs (ttfb_ms, total_ms), the
performance grade returned is one of six ordinal symbols
(A+, A, B, C, D, F), ordered best to worst. -/
theorem C7_amended_six_grades (ttfb total : ℚ) :
    grade_performance ttfb total ∈ (["A+", "A", "B", "C", "D", "F"] : List String) :=
  grade_performance_mem ttfb total

/-- C6: for every successful fetch (monotone timestamps t0 ≤ t1 ≤ t2),
the full-precision download time equals total time minus TTFB exactly,
both TTFB and total time are nonnegative, and each reported field is the
full-precision value rounded to 2 decimal places only at the reporting
boundary. -/
theorem C6_download_time_exact (t0 t1 t2 : ℚ) (content_len : ℕ)
    (resp : ResponseInfo) (h01 : t0 ≤ t1) (h12 : t1 ≤ t2) :
    0 ≤ (t1 - t0) * 1000 ∧
    0 ≤ (t2 - t0) * 1000 ∧
    (measure_performance t0 t1 t2 content_len resp).1.download_time_ms
      = round2 ((t2 - t0) * 1000 - (t1 - t0) * 1000) ∧
    (measure_performance t0 t1 t2 content_len resp).1.ttfb_ms
      = round2 ((t1 - t0) * 1000) ∧
    (measure_performance t0 t1 t2 content_len resp).1.total_time_ms
      = round2 ((t2 - t0) * 1000) :=
  ⟨by linarith, by linarith, rfl, rfl, rfl⟩

/-- C6 witness: the theorem applied at the concrete timestamps 0, 1, 3
seconds. -/
theorem C6_download_time_exact_witness :
    ((0 : ℚ) ≤ 1 ∧ (1 : ℚ) ≤ 3) ∧
    (0 ≤ ((1 : ℚ) - 0) * 1000 ∧
      0 ≤ ((3 : ℚ) - 0) * 1000 ∧
      (measure_performance 0 1 3 2048 respW).1.download_time_ms
        = round2 (((3 : ℚ) - 0) * 1000 - ((1 : ℚ) - 0) * 1000) ∧
      (measure_performance 0 1 3 2048 respW).1.ttfb_ms
        = round2 (((1 : ℚ) - 0) * 1000) ∧
      (measure_performance 0 1 3 2048 respW).1.total_time_ms
        = round2 (((3 : ℚ) - 0) * 1000)) :=
  ⟨⟨by norm_num, by norm_num⟩,
    C6_download_time_exact 0 1 3 2048 respW (by norm_num) (by norm_num)⟩

/-- C5: checkMany returns a result list of the same length with the
result for the i-th URL at position i; the empty list yields the empty
list; and a per-URL failure is converted to an error entry carrying that
URL at that URL's position, each position depending only on its own URL's
outcome. -/
theorem C5_batch_positional (check : String → Except String UrlResult)
    (urls : List String) (i j : ℕ) (e : String)
    (hi : i < urls.length) (hj : j < urls.length)
    (he : check (urls.get ⟨i, hi⟩) = Except.error e) :
    (check_multiple_websites check urls).length = urls.length ∧
    check_multiple_websites check [] = [] ∧
    (check_multiple_websites check urls).get? j
      = some (process_outcome (urls.get ⟨j, hj⟩) (check (urls.get ⟨j, hj⟩))) ∧
    (check_multiple_websites check urls).get? i
      = some { url := urls.get ⟨i, hi⟩, hostname := none, status := "error",
               performance := none, response := none, errors := [e] } := by
  have hne : urls ≠ [] := by
    intro hnil
    rw [hnil] at hi
    simp at hi
  refine ⟨?_, ?_, ?_, ?_⟩
  · simp [check_multiple_websites, hne]
  · simp [check_multiple_websites]
  · rw [check_multiple_websites, if_neg hne, List.get?_map, List.get?_eq_get hj]
    rfl
  · rw [check_multiple_websites, if_neg hne, List.get?_map, List.get?_eq_get hi]
    have he2 : check urls[i] = Except.error e := he
    simp [process_outcome, he2]

/-- C5 witness: a two-URL batch where the check of the second URL raises;
the first position is untouched and the second holds the error entry. -/
theorem C5_batch_positional_witness :
    ((1 < urlsW.length) ∧ (0 < urlsW.length) ∧
      checkW (urlsW.get ⟨1, by decide⟩) = Except.error "boom") ∧
    ((check_multiple_websites checkW urlsW).length = urlsW.length ∧
      check_multiple_websites checkW [] = [] ∧
      (check_multiple_websites checkW urlsW).get? 0
        = some (process_outcome (urlsW.get ⟨0, by decide⟩)
            (checkW (urlsW.get ⟨0, by decide⟩))) ∧
      (check_multiple_websites checkW urlsW).get? 1
        = some { url := urlsW.get ⟨1, by decide⟩, hostname := none, status := "error",
                 performance := none, response := none, errors := ["boom"] }) :=
  ⟨⟨by decide, by decide, by rfl⟩,
    C5_batch_positional checkW urlsW 1 0 "boom" (by decide) (by decide) (by rfl)⟩

/-- C8: for every parsed document, the header-structure score equals
100 − 15×(number of structure issues), and this score is never below 0. -/
theorem C8_header_score (d : Doc) :
    (analyze_headers d).score = 100 - 15 * ((analyze_headers d).issues.length : ℤ) ∧
    0 ≤ (analyze_headers d).score := by
  simp only [analyze_headers]
  split_ifs <;> simp

/-- C10: for every parsed document, the twitter_cards has_essential flag
is false: each essential Twitter key contributes exactly 33 points, so
the uncapped Twitter score is at most 99 and never reaches the ≥ 100
threshold. -/
theorem C10_twitter_never_essential (d : Doc) :
    (analyze_social_media_tags d).twitter_cards.has_essential = false ∧
    (analyze_social_media_tags d).twitter_cards.score ≤ 99 := by
  simp only [analyze_social_media_tags]
  have hk : (["card", "title", "description"].countP
      (fun t => essential_present d.twitter_tags t)) ≤ 3 := by
    simp only [List.countP_cons, List.countP_nil]
    split_ifs <;> omega
  constructor
  · exact decide_eq_false (by omega)
  · omega

/-- C9: for every parsed document, zero images yield score 100 with the
single informational "No images found" issue; otherwise the score is the
rounded percentage of images whose alt attribute exists with a non-empty
trimmed value, and the missing-alt issue is present exactly when the
count of images missing alt text is positive. -/
theorem C9_image_scoring (d : Doc) :
    (analyze_images d).score =
      (if d.img_alts.length = 0 then 100
       else pyRound (((d.img_alts.countP (fun a => alt_present a) : ℚ)
          / (d.img_alts.length : ℚ)) * 100)) ∧
    (analyze_images d).issues =
      (if d.img_alts.length = 0 then ["No images found"]
       else if 0 < d.img_alts.countP (fun a => !(alt_present a)) then
         [toString (d.img_alts.countP (fun a => !(alt_present a)))
           ++ " images missing alt text"]
       else []) := by
  simp only [analyze_images]
  by_cases h : d.img_alts.length = 0 <;>
    simp only [h, if_pos, if_neg, if_true, if_false] <;> exact ⟨trivial, trivial⟩

/-- C3: the source tests word_count < 300 before word_count < 150, so the
"Very thin content (< 150 words)" issue and its 40-point penalty can
never be emitted; a 10-word document gets the "< 300 words" issue and the
25-point penalty instead. -/
theorem C3_very_thin_branch_dead :
    (∀ d : Doc,
      ((analyze_content d).issues.contains "Very thin content (< 150 words)") = false) ∧
    (analyze_content doc_thin).word_count = 10 ∧
    (analyze_content doc_thin).issues = ["Content is thin (< 300 words)"] ∧
    (analyze_content doc_thin).score = 75 := by
  have hw : (split_words "w w w w w w w w w w").length = 10 := by decide
  have hc : ("w w w w w w w w w w" : String).length = 19 := by decide
  have heval : analyze_content doc_thin =
      { word_count := 10, character_count := 19, text_to_html_pct := 100,
        issues := ["Content is thin (< 300 words)"], score := 75 } := by
    simp only [analyze_content, doc_thin]
    norm_num [hw, hc, round1, pyRound]
  refine ⟨?_, by rw [heval], by rw [heval], by rw [heval]⟩
  intro d
  simp only [analyze_content]
  split_ifs <;> first | decide | omega

theorem analyze_title_score_bounds (d : Doc) :
    0 ≤ (analyze_title d).score ∧ (analyze_title d).score ≤ 100 := by
  unfold analyze_title
  cases d.title with
  | none => simp
  | some t =>
    dsimp only
    split_ifs <;> simp

theorem analyze_meta_description_score_bounds (d : Doc) :
    0 ≤ (analyze_meta_description d).score ∧ (analyze_meta_description d).score ≤ 100 := by
  unfold analyze_meta_description
  cases d.meta_description with
  | none => simp
  | some c =>
    dsimp only
    split_ifs <;> simp

theorem analyze_headers_score_bounds (d : Doc) :
    0 ≤ (analyze_headers d).score ∧ (analyze_headers d).score ≤ 100 := by
  simp only [analyze_headers]
  split_ifs <;> simp

theorem analyze_content_score_bounds (d : Doc) :
    0 ≤ (analyze_content d).score ∧ (analyze_content d).score ≤ 100 := by
  simp only [analyze_content]
  split_ifs <;> simp

theorem analyze_images_score_bounds (d : Doc) :
    0 ≤ (analyze_images d).score ∧ (analyze_images d).score ≤ 100 := by
  simp only [analyze_images]
  split_ifs with h h2
  case pos => simp
  all_goals
    dsimp only
    have hlen : 0 < d.img_alts.length := Nat.pos_of_ne_zero h
    have hwle : d.img_alts.countP (fun a => alt_present a) ≤ d.img_alts.length :=
      List.countP_le_length _
    have hq : (0:ℚ) < (d.img_alts.length : ℚ) := by exact_mod_cast hlen
    have h0 : (0:ℚ) ≤ ((d.img_alts.countP (fun a => alt_present a) : ℚ)
        / (d.img_alts.length : ℚ)) * 100 := by positivity
    have h1 : ((d.img_alts.countP (fun a => alt_present a) : ℚ)
        / (d.img_alts.length : ℚ)) ≤ 1 := by
      rw [div_le_one hq]
      exact_mod_cast hwle
    have h2 : ((d.img_alts.countP (fun a => alt_present a) : ℚ)
        / (d.img_alts.length : ℚ)) * 100 ≤ 100 := by linarith
    exact ⟨le_pyRound (by exact_mod_cast h0), pyRound_le (by exact_mod_cast h2)⟩

theorem calculate_seo_score_eq (ta md : TagAnalysis) (ha : HeaderAnalysis)
    (ca : ContentAnalysis) (ia : ImageAnalysis) (ts : TechnicalSeo) :
    calculate_seo_score ta md ha ca ia ts
      = pyRound ((ta.score : ℚ) * 0.20 + (md.score : ℚ) * 0.15 + (ha.score : ℚ) * 0.15
          + (ca.score : ℚ) * 0.20 + (ia.score : ℚ) * 0.10
          + ((max 0 (100 - 20 * (ts.issues.length : ℤ)) : ℤ) : ℚ) * 0.20) := by
  simp only [calculate_seo_score]
  by_cases h : ts.issues = []
  · rw [if_neg (by simp [h])]
    norm_num [h]
  · rw [if_pos h]
    have hcomm : (100 : ℤ) - (ts.issues.length : ℤ) * 20
        = 100 - 20 * (ts.issues.length : ℤ) := by ring
    rw [hcomm]

theorem calculate_seo_score_bounds (ta md : TagAnalysis) (ha : HeaderAnalysis)
    (ca : ContentAnalysis) (ia : ImageAnalysis) (ts : TechnicalSeo)
    (h1 : 0 ≤ ta.score) (h1h : ta.score ≤ 100)
    (h2 : 0 ≤ md.score) (h2h : md.score ≤ 100)
    (h3 : 0 ≤ ha.score) (h3h : ha.score ≤ 100)
    (h4 : 0 ≤ ca.score) (h4h : ca.score ≤ 100)
    (h5 : 0 ≤ ia.score) (h5h : ia.score ≤ 100) :
    0 ≤ calculate_seo_score ta md ha ca ia ts ∧
      calculate_seo_score ta md ha ca ia ts ≤ 100 := by
  rw [calculate_seo_score_eq]
  have hL0 : (0:ℤ) ≤ max 0 (100 - 20 * (ts.issues.length : ℤ)) := le_max_left _ _
  have hL1 : max 0 (100 - 20 * (ts.issues.length : ℤ)) ≤ 100 := by
    apply max_le <;> omega
  have q1 : (0:ℚ) ≤ (ta.score : ℚ) := by exact_mod_cast h1
  have q1h : (ta.score : ℚ) ≤ 100 := by exact_mod_cast h1h
  have q2 : (0:ℚ) ≤ (md.score : ℚ) := by exact_mod_cast h2
  have q2h : (md.score : ℚ) ≤ 100 := by exact_mod_cast h2h
  have q3 : (0:ℚ) ≤ (ha.score : ℚ) := by exact_mod_cast h3
  have q3h : (ha.score : ℚ) ≤ 100 := by exact_mod_cast h3h
  have q4 : (0:ℚ) ≤ (ca.score : ℚ) := by exact_mod_cast h4
  have q4h : (ca.score : ℚ) ≤ 100 := by exact_mod_cast h4h
  have q5 : (0:ℚ) ≤ (ia.score : ℚ) := by exact_mod_cast h5
  have q5h : (ia.score : ℚ) ≤ 100 := by exact_mod_cast h5h
  have qL : (0:ℚ) ≤ ((max 0 (100 - 20 * (ts.issues.length : ℤ)) : ℤ) : ℚ) := by
    exact_mod_cast hL0
  have qLh : ((max 0 (100 - 20 * (ts.issues.length : ℤ)) : ℤ) : ℚ) ≤ 100 := by
    exact_mod_cast hL1
  push_cast at qL qLh
  constructor
  · apply le_pyRound
    push_cast
    linarith
  · apply pyRound_le
    push_cast
    linarith

/-- C2: for every successfully analyzed document (final status 200), the
overall SEO score equals round(title×0.20 + metaDescription×0.15 +
headers×0.15 + content×0.20 + images×0.10 + technical×0.20), where the
technical sub-score is max(0, 100 − 20×(number of technical issues)),
and the resulting integer always lies in [0, 100]. -/
theorem C2_overall_score (url0 domain : String) (page : FetchedPage) (d : Doc)
    (h : page.status_code = 200) :
    (analyze_page_seo url0 domain page d).seo_score
      = pyRound (((analyze_title d).score : ℚ) * 0.20
          + ((analyze_meta_description d).score : ℚ) * 0.15
          + ((analyze_headers d).score : ℚ) * 0.15
          + ((analyze_content d).score : ℚ) * 0.20
          + ((analyze_images d).score : ℚ) * 0.10
          + ((max 0 (100 - 20 * ((analyze_technical_seo d page).issues.length : ℤ)) : ℤ) : ℚ)
              * 0.20) ∧
    0 ≤ (analyze_page_seo url0 domain page d).seo_score ∧
    (analyze_page_seo url0 domain page d).seo_score ≤ 100 := by
  have hscore : (analyze_page_seo url0 domain page d).seo_score
      = calculate_seo_score (analyze_title d) (analyze_meta_description d)
          (analyze_headers d) (analyze_content d) (analyze_images d)
          (analyze_technical_seo d page) := by
    simp only [analyze_page_seo]
    rw [if_neg (by simp [h])]
    rfl
  have r1 := analyze_title_score_bounds d
  have r2 := analyze_meta_description_score_bounds d
  have r3 := analyze_headers_score_bounds d
  have r4 := analyze_content_score_bounds d
  have r5 := analyze_images_score_bounds d
  obtain ⟨hb0, hb1⟩ := calculate_seo_score_bounds (analyze_title d)
    (analyze_meta_description d) (analyze_headers d) (analyze_content d)
    (analyze_images d) (analyze_technical_seo d page)
    r1.1 r1.2 r2.1 r2.2 r3.1 r3.2 r4.1 r4.2 r5.1 r5.2
  exact ⟨by rw [hscore, calculate_seo_score_eq],
    by rw [hscore]; exact hb0, by rw [hscore]; exact hb1⟩

/-- C2 witness: the theorem applied to a concrete 200-status fetch of an
empty document. -/
theorem C2_overall_score_witness :
    pageOkW.status_code = 200 ∧
    ((analyze_page_seo "example.com" "example.com" pageOkW doc_empty).seo_score
        = pyRound (((analyze_title doc_empty).score : ℚ) * 0.20
            + ((analyze_meta_description doc_empty).score : ℚ) * 0.15
            + ((analyze_headers doc_empty).score : ℚ) * 0.15
            + ((analyze_content doc_empty).score : ℚ) * 0.20
            + ((analyze_images doc_empty).score : ℚ) * 0.10
            + ((max 0 (100 - 20 *
                ((analyze_technical_seo doc_empty pageOkW).issues.length : ℤ)) : ℤ) : ℚ)
                * 0.20) ∧
      0 ≤ (analyze_page_seo "example.com" "example.com" pageOkW doc_empty).seo_score ∧
      (analyze_page_seo "example.com" "example.com" pageOkW doc_empty).seo_score ≤ 100) :=
  ⟨rfl, C2_overall_score "example.com" "example.com" pageOkW doc_empty rfl⟩

/-- C4: for every SEO analysis whose fetched final HTTP status is not 200
(including fetch failures surfaced as status code 0), the result has
status "error" and exactly one error entry, no extractor runs (all
analysis fields keep their initial empty values), and seo_score stays 0. -/
theorem C4_non200_blocks_analysis (url0 domain : String) (page : FetchedPage)
    (d : Doc) (h : page.status_code ≠ 200) :
    (analyze_page_seo url0 domain page d).status = "error" ∧
    (analyze_page_seo url0 domain page d).errors.length = 1 ∧
    (analyze_page_seo url0 domain page d).title_analysis = none ∧
    (analyze_page_seo url0 domain page d).meta_analysis = none ∧
    (analyze_page_seo url0 domain page d).header_analysis = none ∧
    (analyze_page_seo url0 domain page d).content_analysis = none ∧
    (analyze_page_seo url0 domain page d).image_analysis = none ∧
    (analyze_page_seo url0 domain page d).technical_seo = none ∧
    (analyze_page_seo url0 domain page d).social_media = none ∧
    (analyze_page_seo url0 domain page d).seo_score = 0 := by
  simp only [analyze_page_seo]
  rw [if_pos h]
  exact ⟨rfl, rfl, rfl, rfl, rfl, rfl, rfl, rfl, rfl, rfl⟩

/-- C4 witness: the theorem applied to a failed fetch surfaced as status
code 0. -/
theorem C4_non200_blocks_analysis_witness :
    pageFailW.status_code ≠ 200 ∧
    ((analyze_page_seo "down.example" "down.example" pageFailW doc_empty).status = "error" ∧
      (analyze_page_seo "down.example" "down.example" pageFailW doc_empty).errors.length = 1 ∧
      (analyze_page_seo "down.example" "down.example" pageFailW doc_empty).title_analysis = none ∧
      (analyze_page_seo "down.example" "down.example" pageFailW doc_empty).meta_analysis = none ∧
      (analyze_page_seo "down.example" "down.example" pageFailW doc_empty).header_analysis = none ∧
      (analyze_page_seo "down.example" "down.example" pageFailW doc_empty).content_analysis = none ∧
      (analyze_page_seo "down.example" "down.example" pageFailW doc_empty).image_analysis = none ∧
      (analyze_page_seo "down.example" "down.example" pageFailW doc_empty).technical_seo = none ∧
      (analyze_page_seo "down.example" "down.example" pageFailW doc_empty).social_media = none ∧
      (analyze_page_seo "down.example" "down.example" pageFailW doc_empty).seo_score = 0) :=
  ⟨by decide, C4_non200_blocks_analysis "down.example" "down.example" pageFailW doc_empty (by decide)⟩
